import Mathlib

/-
Verification of the rust-qemu object-model binding layer.

The development shallowly embeds the modules of src/qemu/src that the
properties below speak about: the reference counted owning handle and
the casting operations (qom/refs.rs), object construction
(qom/object.rs), the error bridge (util/error.rs), the value marshaling
wrappers (util/foreign.rs), the struct layout computation
(util/offset_of.rs) and the class vtable construction
(qom/object_impl.rs, hw/core/device_impl.rs).

The foreign (QOM, C side) runtime is out of scope of the sources and is
modelled from its interface description in the specification; every
such definition carries a doc comment starting with the words Modelled
from the spec.
-/

namespace Qemu

/-- Reference counting calls issued to the foreign runtime, observable
as a trace: object_ref and object_unref from bindings/mod.rs. -/
inductive RefOp where
  | ref (p : Nat)
  | unref (p : Nat)

/-- Modelled from the spec: the observable state of the foreign QOM
runtime. rc maps a live instance address to its reference count (none
means not allocated, or already freed); ty gives the runtime type name
of an instance; reg is the type registry mapping every registered type
name to the list of type names it may be viewed as (itself, then its
ancestors up to the root); alloc gives the address that object_new
returns for a type name, with 0 modelling a null return from a failed
allocation. -/
structure QOM where
  rc : Nat → Option Nat
  ty : Nat → String
  reg : List (String × List String)
  alloc : String → Nat

/-- Modelled from the spec: increment_refcount (object_ref). -/
def objRef (st : QOM) (p : Nat) : QOM :=
  { st with rc := fun x => if x = p then (st.rc x).map (· + 1) else st.rc x }

/-- Modelled from the spec: decrement_refcount (object_unref); a
decrement that reaches zero finalizes and frees the instance, so its
address disappears from the heap. -/
def objUnref (st : QOM) (p : Nat) : QOM :=
  { st with rc := fun x =>
      if x = p then
        match st.rc x with
        | some n => if n ≤ 1 then none else some (n - 1)
        | none => none
      else st.rc x }

/-- The owning handle Arc of qom/refs.rs (also exported as Owned): a
NonNull instance address. The non-null invariant is carried as a
hypothesis where a theorem needs it, because the source constructor
Arc::from_raw uses NonNull::new_unchecked and performs no check. -/
structure Arc where
  ptr : Nat

/-- Arc::from_raw (refs.rs lines 161 to 166): wrap a raw pointer; no
foreign call is made. -/
def Arc.from_raw (p : Nat) : Arc := ⟨p⟩

/-- Arc::from on a plain reference (refs.rs lines 174 to 181): one
object_ref on the address, then wrap it. -/
def Arc.fromRef (st : QOM) (p : Nat) : QOM × Arc × List RefOp :=
  (objRef st p, Arc.from_raw p, [RefOp.ref p])

/-- Clone for Arc (refs.rs lines 240 to 246): Arc::from applied to the
dereferenced handle, hence one object_ref on the same address. -/
def Arc.clone (st : QOM) (a : Arc) : QOM × Arc × List RefOp :=
  Arc.fromRef st a.ptr

/-- Drop for Arc (refs.rs lines 260 to 268): one object_unref on the
address of the handle. -/
def Arc.dropRef (st : QOM) (a : Arc) : QOM × List RefOp :=
  (objUnref st a.ptr, [RefOp.unref a.ptr])

/-- The heap effect of cloning a handle n times (all clones of a handle
share one instance address, so each clone is one object_ref there). -/
def iterClone (st : QOM) (a : Arc) : Nat → QOM
  | 0 => st
  | n + 1 => (Arc.clone (iterClone st a n) a).1

/-- The heap effect of dropping k of the handles with address a.ptr. -/
def iterDrop (st : QOM) (a : Arc) : Nat → QOM
  | 0 => st
  | k + 1 => (Arc.dropRef (iterDrop st a k) a).1

theorem iterClone_rc (st : QOM) (a : Arc) (n : Nat) :
    (iterClone st a n).rc a.ptr = (st.rc a.ptr).map (· + n) := by
  induction n with
  | zero => cases h : st.rc a.ptr <;> simp [iterClone, h]
  | succ n ih =>
    have : (iterClone st a (n + 1)).rc a.ptr
        = ((iterClone st a n).rc a.ptr).map (· + 1) := by
      simp [iterClone, Arc.clone, Arc.fromRef, objRef]
    rw [this, ih]
    cases h : st.rc a.ptr with
    | none => simp [h]
    | some v => simp [h]; omega

theorem iterDrop_rc (st : QOM) (a : Arc) (n : Nat)
    (h : st.rc a.ptr = some (n + 1)) :
    ∀ k, k ≤ n + 1 →
      (iterDrop st a k).rc a.ptr =
        if k = n + 1 then none else some (n + 1 - k) := by
  intro k
  induction k with
  | zero =>
    intro _
    rw [if_neg (by omega)]
    simpa [iterDrop] using h
  | succ k ih =>
    intro hk
    have hk' : k ≤ n + 1 := Nat.le_of_succ_le hk
    have hlt : k < n + 1 := hk
    have hne : k ≠ n + 1 := Nat.ne_of_lt hlt
    have ihv := ih hk'
    rw [if_neg hne] at ihv
    have step : (iterDrop st a (k + 1)).rc a.ptr
        = match (iterDrop st a k).rc a.ptr with
          | some m => if m ≤ 1 then none else some (m - 1)
          | none => none := by
      simp [iterDrop, Arc.dropRef, objUnref]
    rw [step, ihv]
    by_cases hkn : k + 1 = n + 1
    · rw [if_pos hkn]
      have : n + 1 - k = 1 := by omega
      simp [this]
    · rw [if_neg hkn]
      have h1 : ¬ n + 1 - k ≤ 1 := by omega
      simp [h1]
      omega

/-- Claim C1: Clone on an owning handle issues exactly one object_ref
on the same instance address and returns a second handle to that
address; Drop issues exactly one object_unref; cloning a handle with
foreign count 1 a total of n times and then dropping k of the n + 1
handles leaves the foreign count at n + 1 - k, one step per operation,
and the instance is freed (disappears from the heap) exactly on the
last drop, never before. -/
theorem arc_clone_drop_refcount (st : QOM) (a : Arc) (n k : Nat)
    (h1 : st.rc a.ptr = some 1) (hk : k ≤ n + 1) :
    (Arc.clone st a).2.1.ptr = a.ptr ∧
    (Arc.clone st a).2.2 = [RefOp.ref a.ptr] ∧
    (Arc.dropRef st a).2 = [RefOp.unref a.ptr] ∧
    (iterClone st a n).rc a.ptr = some (n + 1) ∧
    (iterDrop (iterClone st a n) a k).rc a.ptr =
      (if k = n + 1 then none else some (n + 1 - k)) := by
  have hcount : (iterClone st a n).rc a.ptr = some (n + 1) := by
    rw [iterClone_rc, h1]
    simp [Nat.add_comm]
  refine ⟨rfl, rfl, rfl, hcount, ?_⟩
  exact iterDrop_rc (iterClone st a n) a n hcount k hk

/-- A concrete one-instance heap used to instantiate claim C1. -/
def c1St : QOM :=
  { rc := fun x => if x = 5 then some 1 else none,
    ty := fun _ => "object",
    reg := [],
    alloc := fun _ => 0 }

/-- Witness for claim C1 at the concrete heap c1St with n = 2 clones
and k = 3 drops. -/
theorem arc_clone_drop_refcount_witness :
    c1St.rc (Arc.from_raw 5).ptr = some 1 ∧ 3 ≤ 2 + 1 ∧
    ((Arc.clone c1St (Arc.from_raw 5)).2.1.ptr = (Arc.from_raw 5).ptr ∧
     (Arc.clone c1St (Arc.from_raw 5)).2.2 = [RefOp.ref (Arc.from_raw 5).ptr] ∧
     (Arc.dropRef c1St (Arc.from_raw 5)).2 = [RefOp.unref (Arc.from_raw 5).ptr] ∧
     (iterClone c1St (Arc.from_raw 5) 2).rc (Arc.from_raw 5).ptr = some (2 + 1) ∧
     (iterDrop (iterClone c1St (Arc.from_raw 5) 2) (Arc.from_raw 5) 3).rc
         (Arc.from_raw 5).ptr =
       (if 3 = 2 + 1 then none else some (2 + 1 - 3))) :=
  ⟨rfl, by decide,
   arc_clone_drop_refcount c1St (Arc.from_raw 5) 2 3 rfl (by decide)⟩

/-- Modelled from the spec: the viewable-as list of a registered type
name, as stored in the registry (the type itself and its ancestors). -/
def ancestors (reg : List (String × List String)) (t : String) : List String :=
  match reg.find? (fun r => r.1 == t) with
  | some r => r.2
  | none => []

/-- Modelled from the spec: object_dynamic_cast succeeds exactly when
the actual runtime type of the instance is the target or one of its
descendants, returning the argument address itself; otherwise it
returns null (0). It makes no reference count call. -/
def object_dynamic_cast (st : QOM) (p : Nat) (target : String) : Nat :=
  if target ∈ ancestors st.reg (st.ty p) then p else 0

/-- ObjectCast::dynamic_cast on a plain reference (refs.rs lines 102 to
115): call object_dynamic_cast and turn a null result into None. -/
def refDynamicCast (st : QOM) (p : Nat) (target : String) : Option Nat :=
  let r := object_dynamic_cast st p target
  if r = 0 then none else some r

/-- Arc::dynamic_cast (refs.rs lines 201 to 212): the source wraps src
in ManuallyDrop, so neither object_ref nor object_unref runs; on
failure the original handle is recovered from the ManuallyDrop and
returned in Err, on success the returned address is rewrapped with
Arc::from_raw. -/
def Arc.dynamicCast (st : QOM) (src : Arc) (target : String) :
    Except Arc Arc × List RefOp :=
  match refDynamicCast st src.ptr target with
  | none => (Except.error src, [])
  | some p => (Except.ok (Arc.from_raw p), [])

/-- Arc::downcast (refs.rs lines 195 to 197): delegates to
Arc::dynamic_cast. -/
def Arc.downcast (st : QOM) (src : Arc) (target : String) :
    Except Arc Arc × List RefOp :=
  Arc.dynamicCast st src target

/-- The unconditional cast Arc::unsafe_cast (refs.rs lines 220 to 225),
rendered here as unchecked_cast: ManuallyDrop skips any reference
count adjustment and the same address is rewrapped. -/
def Arc.unchecked_cast (src : Arc) : Arc × List RefOp :=
  (Arc.from_raw src.ptr, [])

/-- Arc::upcast (refs.rs lines 184 to 190): delegates to the
unconditional cast, with the IsA bound checked at compile time. -/
def Arc.upcast (src : Arc) : Arc × List RefOp :=
  Arc.unchecked_cast src

/-- Claim C2: when the runtime type check fails, Arc::downcast and
Arc::dynamic_cast return the Err variant carrying the original handle
itself (hence the same instance address), and the whole operation
performs no object_ref or object_unref call, so the original handle is
still valid and no reference is lost or leaked on failure. -/
theorem arc_failed_cast_preserves_handle (st : QOM) (src : Arc) (target : String)
    (hfail : target ∉ ancestors st.reg (st.ty src.ptr)) :
    Arc.dynamicCast st src target = (Except.error src, []) ∧
    Arc.downcast st src target = (Except.error src, []) := by
  have h : refDynamicCast st src.ptr target = none := by
    simp [refDynamicCast, object_dynamic_cast, hfail]
  constructor <;> simp [Arc.downcast, Arc.dynamicCast, h]

/-- A concrete registry with a two-level hierarchy used to instantiate
the casting claims: instance 7 has runtime type derived. -/
def castSt : QOM :=
  { rc := fun x => if x = 7 then some 1 else none,
    ty := fun x => if x = 7 then "derived" else "object",
    reg := [("derived", ["derived", "base", "object"]),
            ("base", ["base", "object"])],
    alloc := fun _ => 0 }

/-- Witness for claim C2: casting the derived instance to an unrelated
type fails and hands the original handle back. -/
theorem arc_failed_cast_witness :
    "unrelated" ∉ ancestors castSt.reg (castSt.ty 7) ∧
    (Arc.dynamicCast castSt (Arc.from_raw 7) "unrelated" =
        (Except.error (Arc.from_raw 7), []) ∧
     Arc.downcast castSt (Arc.from_raw 7) "unrelated" =
        (Except.error (Arc.from_raw 7), [])) :=
  ⟨by decide,
   arc_failed_cast_preserves_handle castSt (Arc.from_raw 7) "unrelated" (by decide)⟩

/-- Claim C3: Arc::upcast, the unconditional cast and a successful
Arc::downcast or Arc::dynamic_cast consume the input handle and return
a handle holding the same instance address, and none of them performs
an object_ref or object_unref call: ownership moves and the foreign
reference count is unchanged by the cast. -/
theorem arc_cast_moves_ownership (st : QOM) (src : Arc) (target : String)
    (hnn : src.ptr ≠ 0) (hsucc : target ∈ ancestors st.reg (st.ty src.ptr)) :
    Arc.upcast src = (src, []) ∧
    Arc.unchecked_cast src = (src, []) ∧
    Arc.dynamicCast st src target = (Except.ok src, []) ∧
    Arc.downcast st src target = (Except.ok src, []) := by
  have h : refDynamicCast st src.ptr target = some src.ptr := by
    simp [refDynamicCast, object_dynamic_cast, hsucc, hnn]
  refine ⟨rfl, rfl, ?_, ?_⟩ <;>
    simp [Arc.downcast, Arc.dynamicCast, h, Arc.from_raw]

/-- Witness for claim C3: upcasting the derived instance to base
succeeds and keeps the address, with no reference count call. -/
theorem arc_cast_moves_ownership_witness :
    (Arc.from_raw 7).ptr ≠ 0 ∧
    "base" ∈ ancestors castSt.reg (castSt.ty 7) ∧
    (Arc.upcast (Arc.from_raw 7) = (Arc.from_raw 7, []) ∧
     Arc.unchecked_cast (Arc.from_raw 7) = (Arc.from_raw 7, []) ∧
     Arc.dynamicCast castSt (Arc.from_raw 7) "base" =
        (Except.ok (Arc.from_raw 7), []) ∧
     Arc.downcast castSt (Arc.from_raw 7) "base" =
        (Except.ok (Arc.from_raw 7), [])) :=
  ⟨by decide, by decide,
   arc_cast_moves_ownership castSt (Arc.from_raw 7) "base" (by decide) (by decide)⟩

/-- Modelled from the spec: allocate (object_new) returns a fresh
instance of the named type with reference count 1, or null (0) when
allocation fails. -/
def object_new (st : QOM) (t : String) : QOM × Nat :=
  let p := st.alloc t
  if p = 0 then (st, 0)
  else
    ({ st with rc := fun x => if x = p then some 1 else st.rc x,
               ty := fun x => if x = p then t else st.ty x }, p)

/-- ObjectClassMethods::new (qom/object.rs lines 57 to 67): call
object_new and wrap the returned pointer. The source dereferences the
returned pointer and passes it to from_raw (NonNull::new_unchecked)
with no null check anywhere, so the embedding wraps whatever address
the allocator produced, including 0. No object_ref is issued: the
reference count 1 of the fresh instance is adopted. -/
def objectClassMethods_new (st : QOM) (t : String) : QOM × Arc × List RefOp :=
  let r := object_new st t
  (r.1, Arc.from_raw r.2, [])

/-- A runtime whose allocator fails (object_new returns null). -/
def nullAllocSt : QOM :=
  { rc := fun _ => none, ty := fun _ => "object", reg := [],
    alloc := fun _ => 0 }

/-- Claim C4 counterexample: with an allocator that returns null,
ObjectClassMethods::new does not stop with a fatal initialization
error: it proceeds unchanged and wraps the null pointer in a handle
(in the Rust source this is the unchecked dereference of a null
pointer, undefined behavior). This refutes the part of the claim that
says the constructor checks the returned pointer for null and treats a
null return as fatal rather than proceeding. -/
theorem object_new_null_unchecked :
    objectClassMethods_new nullAllocSt "device" =
      (nullAllocSt, Arc.from_raw 0, []) := rfl

/-- Claim C4 as amended: ObjectClassMethods::new performs no null
check; when the allocator returns a non-null address, new returns a
handle at exactly that address, the instance keeps its existing
reference count of 1 (adopted, with no extra object_ref call). -/
theorem object_new_adopts_refcount (st : QOM) (t : String)
    (h : st.alloc t ≠ 0) :
    (objectClassMethods_new st t).2.1.ptr = st.alloc t ∧
    (objectClassMethods_new st t).1.rc (st.alloc t) = some 1 ∧
    (objectClassMethods_new st t).2.2 = [] := by
  refine ⟨?_, ?_, rfl⟩ <;>
    simp [objectClassMethods_new, object_new, Arc.from_raw, h]

/-- A runtime whose allocator returns address 5. -/
def okAllocSt : QOM :=
  { rc := fun _ => none, ty := fun _ => "object", reg := [],
    alloc := fun _ => 5 }

/-- Witness for the amended claim C4 at a succeeding allocator. -/
theorem object_new_adopts_refcount_witness :
    okAllocSt.alloc "device" ≠ 0 ∧
    ((objectClassMethods_new okAllocSt "device").2.1.ptr =
        okAllocSt.alloc "device" ∧
     (objectClassMethods_new okAllocSt "device").1.rc
        (okAllocSt.alloc "device") = some 1 ∧
     (objectClassMethods_new okAllocSt "device").2.2 = []) :=
  ⟨by decide, object_new_adopts_refcount okAllocSt "device" (by decide)⟩

/-- The native error type of util/error.rs: an optional message, an
optional cause (a boxed error value, modelled here by its display
text) and an optional source location. -/
structure Error where
  msg : Option String
  cause : Option String
  location : Option (String × Nat)

/-- The Display implementation for Error (util/error.rs lines 38 to
56): the location, the message and the cause are written in that
order, each after a separating prefix that is empty before the first
written part and a colon with a space afterwards; when nothing at all
was written the text unknown error is produced. -/
def Error.display (e : Error) : String :=
  let s1 := match e.location with
    | some fl => fl.1 ++ ":" ++ toString fl.2
    | none => ""
  let p1 : String := match e.location with
    | some _ => ": "
    | none => ""
  let s2 := match e.msg with
    | some m => s1 ++ p1 ++ m
    | none => s1
  let p2 : String := match e.msg with
    | some _ => ": "
    | none => p1
  match e.cause with
  | some c => s2 ++ p2 ++ c
  | none => if p2 = "" then s2 ++ "unknown error" else s2

/-- The foreign error heap: a counter handing out fresh addresses and
the message text stored in each live foreign error object. -/
structure ErrHeap where
  next : Nat
  errs : Nat → Option String

/-- Modelled from the spec: error_setg_internal constructs a new
foreign error object carrying the formatted message and hands back its
address. -/
def error_setg (h : ErrHeap) (msg : String) : ErrHeap × Nat :=
  ({ next := h.next + 1,
     errs := fun x => if x = h.next then some msg else h.errs x }, h.next)

/-- Modelled from the spec: error_get_pretty returns the message text
of a foreign error object. -/
def error_get_pretty (h : ErrHeap) (p : Nat) : String :=
  (h.errs p).getD ""

/-- Modelled from the spec: error_free releases a foreign error
object. -/
def error_free (h : ErrHeap) (p : Nat) : ErrHeap :=
  { h with errs := fun x => if x = p then none else h.errs x }

/-- CloneToForeign for Error (util/error.rs lines 207 to 230): build a
foreign error object via error_setg_internal, formatting the display
text of the native error. -/
def Error.clone_to_foreign (h : ErrHeap) (e : Error) : ErrHeap × Nat :=
  error_setg h (Error.display e)

/-- FromForeign::cloned_from_foreign for Error (util/error.rs lines
232 to 241): the native error wraps the pretty message of the foreign
error object, with no cause and no location. -/
def Error.cloned_from_foreign (h : ErrHeap) (p : Nat) : Error :=
  { msg := some (error_get_pretty h p), cause := none, location := none }

/-- The default FromForeign::from_foreign (util/foreign.rs lines 181
to 185), the take-from-foreign conversion: clone from the foreign
pointer, then free it. -/
def Error.from_foreign (h : ErrHeap) (p : Nat) : ErrHeap × Error :=
  (error_free h p, Error.cloned_from_foreign h p)

/-- The state seen by the error bridge: the foreign error heap plus
the memory cells holding foreign error pointers (the double
indirection errp convention). Cell address 0 is the null slot. -/
structure EState where
  heap : ErrHeap
  slots : Nat → Nat

/-- Error::propagate (util/error.rs lines 171 to 176): return at once
when errp is null, otherwise write into the slot the pointer produced
by clone_to_foreign_ptr, consuming the native error. -/
def Error.propagate (st : EState) (e : Error) (errp : Nat) : EState :=
  if errp = 0 then st
  else
    let r := Error.clone_to_foreign st.heap e
    { heap := r.1, slots := fun x => if x = errp then r.2 else st.slots x }

/-- Error::ok_or_propagate (util/error.rs lines 151 to 162): a success
is returned as is, a failure is propagated into errp and None is
returned. -/
def Error.ok_or_propagate {α : Type} (st : EState) (r : Except Error α)
    (errp : Nat) : EState × Option α :=
  match r with
  | Except.ok v => (st, some v)
  | Except.error e => (Error.propagate st e errp, none)

/-- Claim C5: propagate with a null errp returns without writing
anything; with a non-null errp it writes into the slot the address of
a newly constructed foreign error object holding the display text of
the native error, leaving every other slot alone; and
ok_or_propagate applied to a success leaves the state untouched. -/
theorem error_propagate_contract {α : Type} (st : EState) (e : Error)
    (errp : Nat) (v : α) (hnn : errp ≠ 0) :
    Error.propagate st e 0 = st ∧
    (Error.propagate st e errp).slots errp = st.heap.next ∧
    (Error.propagate st e errp).heap.errs st.heap.next =
      some (Error.display e) ∧
    (Error.propagate st e errp).slots =
      (fun x => if x = errp then st.heap.next else st.slots x) ∧
    Error.ok_or_propagate st (Except.ok v) errp = (st, some v) := by
  refine ⟨rfl, ?_, ?_, ?_, rfl⟩ <;>
    simp [Error.propagate, Error.clone_to_foreign, error_setg, hnn]

/-- A fresh error-bridge state used to instantiate claim C5. -/
def errSt : EState :=
  { heap := { next := 1, errs := fun _ => none }, slots := fun _ => 0 }

/-- The native error with message boom. -/
def boomErr : Error :=
  { msg := some "boom", cause := none, location := none }

/-- Witness for claim C5 at the fresh state, slot 7 and the boom
error. -/
theorem error_propagate_contract_witness :
    (7 : Nat) ≠ 0 ∧
    (Error.propagate errSt boomErr 0 = errSt ∧
     (Error.propagate errSt boomErr 7).slots 7 = errSt.heap.next ∧
     (Error.propagate errSt boomErr 7).heap.errs errSt.heap.next =
        some (Error.display boomErr) ∧
     (Error.propagate errSt boomErr 7).slots =
        (fun x => if x = 7 then errSt.heap.next else errSt.slots x) ∧
     Error.ok_or_propagate errSt (Except.ok (0 : Nat)) 7 =
        (errSt, some 0)) :=
  ⟨by decide, error_propagate_contract errSt boomErr 7 0 (by decide)⟩

/-- An empty foreign error heap. -/
def emptyErrHeap : ErrHeap := { next := 1, errs := fun _ => none }

/-- Claim C6: converting the native error with message boom through
clone-to-foreign and back through take-from-foreign yields a native
error whose displayed text contains boom. -/
theorem error_roundtrip_boom :
    List.IsInfix "boom".toList
      (Error.display
        (Error.from_foreign (Error.clone_to_foreign emptyErrHeap boomErr).1
          (Error.clone_to_foreign emptyErrHeap boomErr).2).2).toList := by
  decide

/-- CloneToForeign for an optional value (util/foreign.rs lines 49 to
67) together with the Default for OwnedPointer it invokes (lines 303
to 307). The underlying conversion of the inner type is abstracted as
tClone, producing the address of the fresh foreign copy. The Some
branch maps the inner conversion over the value (the OwnedPointer
into conversion keeps the pointer). The None branch is
unwrap_or_default on a Rust None, which calls the OwnedPointer
Default, which calls clone_to_foreign on the Option default, that is
on None again: the fuel argument counts these recursive calls, and a
result of none means the computation never returns a pointer. -/
def optionCloneToForeign {α : Type} (tClone : α → Nat) :
    Nat → Option α → Option Nat
  | _, some x => some (tClone x)
  | 0, none => none
  | fuel + 1, none => optionCloneToForeign tClone fuel none

/-- FromForeign::cloned_from_foreign for an optional value
(util/foreign.rs lines 69 to 81): a null pointer becomes None, a
non-null pointer p becomes Some of the underlying conversion of p
(abstracted as tFrom). -/
def optionClonedFromForeign {α : Type} (tFrom : Nat → α) (p : Nat) :
    Option α :=
  if p = 0 then none else some (tFrom p)

/-- Claim C7: the from-foreign direction behaves as claimed (null to
None, non-null p to Some of the underlying conversion of p) and the
Some branch of clone_to_foreign is exactly the underlying conversion;
but clone_to_foreign on None never produces the claimed null foreign
pointer: for every amount of fuel the recursion through the
OwnedPointer Default implementation is still running, that is the
source code diverges on None instead of returning a null pointer. -/
theorem option_clone_to_foreign_diverges :
    (∀ (α : Type) (tClone : α → Nat) (fuel : Nat),
        optionCloneToForeign tClone fuel (none : Option α) = none) ∧
    (∀ (α : Type) (tClone : α → Nat) (fuel : Nat) (x : α),
        optionCloneToForeign tClone fuel (some x) = some (tClone x)) ∧
    (∀ (α : Type) (tFrom : Nat → α),
        optionClonedFromForeign tFrom 0 = (none : Option α)) ∧
    (∀ (α : Type) (tFrom : Nat → α) (p : Nat),
        optionClonedFromForeign tFrom (p + 1) = some (tFrom (p + 1))) := by
  refine ⟨?_, ?_, ?_, ?_⟩
  · intro α tClone fuel
    induction fuel with
    | zero => rfl
    | succ fuel ih => simpa [optionCloneToForeign] using ih
  · intro α tClone fuel x
    cases fuel <;> rfl
  · intro α tFrom
    rfl
  · intro α tFrom p
    simp [optionClonedFromForeign]

/-- One field of a struct declaration, reduced to what the layout
computation of util/offset_of.rs consumes: its size and alignment. -/
structure FieldTy where
  size : Nat
  align : Nat

/-- The offset computation of one field in with_offsets!
(util/offset_of.rs lines 71 to 98): with trail the remainder of the
end of the previous field by the alignment of this field, the offset
is that end plus (align - trail) times one when trail is non zero and
times zero otherwise. -/
def fieldOffset (endPrev aln : Nat) : Nat :=
  let trail := endPrev % aln
  endPrev + (aln - trail) * (if trail = 0 then 0 else 1)

/-- The recursion of with_offsets! over the declared field list: the
running END_OF_PREV_FIELD starts at 0 and each field advances it by
its own size past its own offset, in declaration order. -/
def offsetsFrom : Nat → List FieldTy → List Nat
  | _, [] => []
  | e, f :: fs =>
    let off := fieldOffset e f.align
    off :: offsetsFrom (off + f.size) fs

/-- The offsets with_offsets! assigns to a declared field list. -/
def with_offsets (fs : List FieldTy) : List Nat := offsetsFrom 0 fs

theorem fieldOffset_round (e a : Nat) :
    fieldOffset e (a + 1) % (a + 1) = 0 ∧
    e ≤ fieldOffset e (a + 1) ∧ fieldOffset e (a + 1) < e + (a + 1) := by
  by_cases h : e % (a + 1) = 0
  · have he : fieldOffset e (a + 1) = e := by
      simp [fieldOffset, h]
    refine ⟨?_, ?_, ?_⟩ <;> simp [he, h]
  · have key : fieldOffset e (a + 1) = (a + 1) * (e / (a + 1) + 1) := by
      simp only [fieldOffset, if_neg h, Nat.mul_one]
      have hd := Nat.div_add_mod e (a + 1)
      have hlt : e % (a + 1) < a + 1 := Nat.mod_lt _ (Nat.succ_pos a)
      rw [Nat.mul_add, Nat.mul_one]
      generalize (a + 1) * (e / (a + 1)) = m at hd ⊢
      generalize hr : e % (a + 1) = r at hd hlt h ⊢
      omega
    refine ⟨?_, ?_, ?_⟩
    · rw [key]; exact Nat.mul_mod_right _ _
    · rw [key]
      have hd := Nat.div_add_mod e (a + 1)
      have hlt : e % (a + 1) < a + 1 := Nat.mod_lt _ (Nat.succ_pos a)
      rw [Nat.mul_add, Nat.mul_one]
      generalize (a + 1) * (e / (a + 1)) = m at hd ⊢
      omega
    · rw [key]
      have hd := Nat.div_add_mod e (a + 1)
      have hlt : e % (a + 1) < a + 1 := Nat.mod_lt _ (Nat.succ_pos a)
      rw [Nat.mul_add, Nat.mul_one]
      generalize (a + 1) * (e / (a + 1)) = m at hd ⊢
      omega

/-- Claim C8: with_offsets! assigns the first declared field offset 0;
each field offset is the end of the previous field rounded up to the
own alignment of the field (for every positive alignment a + 1 the
computed offset is the unique multiple of a + 1 in the half open
window of length a + 1 starting at the end of the previous field); the
fields are processed in declaration order with no reordering; and for
a parent struct of size 8 followed by fields of types u32, u8 and u64
the computed offsets are 0, 8, 12 and 16. -/
theorem with_offsets_layout :
    (∀ (fs : List FieldTy) (f : FieldTy),
        (with_offsets (f :: fs)).head? = some 0) ∧
    (∀ e a, fieldOffset e (a + 1) % (a + 1) = 0 ∧
        e ≤ fieldOffset e (a + 1) ∧ fieldOffset e (a + 1) < e + (a + 1)) ∧
    (∀ (e : Nat) (f : FieldTy) (fs : List FieldTy),
        offsetsFrom e (f :: fs) =
          fieldOffset e f.align :: offsetsFrom (fieldOffset e f.align + f.size) fs) ∧
    with_offsets [⟨8, 8⟩, ⟨4, 4⟩, ⟨1, 1⟩, ⟨8, 8⟩] = [0, 8, 12, 16] := by
  refine ⟨?_, fieldOffset_round, fun e f fs => rfl, by decide⟩
  intro fs f
  simp [with_offsets, offsetsFrom, fieldOffset]

/-- The override declaration of a Rust subclass of Object
(qom/object_impl.rs lines 27 to 31): the optional unparent
implementation. -/
structure ObjectImplDecl (T : Type) where
  UNPARENT : Option (T → Unit)

/-- The override declaration of a Rust subclass of Device
(hw/core/device_impl.rs lines 23 to 35), together with the ObjectImpl
part it extends and the property table pointer of DeviceTypeImpl. -/
structure DeviceImplDecl (T : Type) where
  toObj : ObjectImplDecl T
  REALIZE : Option (T → Except Error Unit)
  UNREALIZE : Option (T → Unit)
  COLD_RESET : Option (T → Unit)
  PROPERTIES : Nat

/-- The trampoline rust_unparent (qom/object_impl.rs lines 36 to 39):
unwrap the declared override and call it on the reinterpreted
instance. The none branch is the unreachable unwrap panic, since the
trampoline is only installed when the constant is Some. -/
def rust_unparent {T : Type} (d : ObjectImplDecl T) : T → Unit :=
  fun obj =>
    match d.UNPARENT with
    | some f => f obj
    | none => ()

/-- The trampoline rust_realize (hw/core/device_impl.rs lines 45 to
52): unwrap the declared override, call it and pass the result through
Error::ok_or_propagate into the foreign errp slot. -/
def rust_realize {T : Type} (d : DeviceImplDecl T) :
    T → Nat → EState → EState :=
  fun obj errp st =>
    match d.REALIZE with
    | some f => (Error.ok_or_propagate st (f obj) errp).1
    | none => st

/-- The trampoline rust_unrealize (hw/core/device_impl.rs lines 55 to
58). -/
def rust_unrealize {T : Type} (d : DeviceImplDecl T) : T → Unit :=
  fun obj =>
    match d.UNREALIZE with
    | some f => f obj
    | none => ()

/-- The trampoline rust_cold_reset (hw/core/device_impl.rs lines 39 to
42). -/
def rust_cold_reset {T : Type} (d : DeviceImplDecl T) : T → Unit :=
  fun obj =>
    match d.COLD_RESET with
    | some f => f obj
    | none => ()

/-- The foreign ObjectClass vtable (bindings/mod.rs lines 14 to 16):
one optional unparent slot. -/
structure ObjectClassS (T : Type) where
  unparent : Option (T → Unit)

/-- ObjectClass::class_init (qom/object_impl.rs lines 33 to 42): the
unparent slot is the declared constant mapped to its trampoline. -/
def ObjectClassS.class_init {T : Type} (d : ObjectImplDecl T)
    (oc : ObjectClassS T) : ObjectClassS T :=
  { oc with unparent := d.UNPARENT.map (fun _ => rust_unparent d) }

/-- The foreign DeviceClass vtable (bindings/mod.rs lines 38 to 45):
the embedded ObjectClass, the three optional device slots and the
property table pointer. -/
structure DeviceClassS (T : Type) where
  oc : ObjectClassS T
  realize : Option (T → Nat → EState → EState)
  unrealize : Option (T → Unit)
  cold_reset : Option (T → Unit)
  properties : Nat

/-- DeviceClass::class_init (hw/core/device_impl.rs lines 37 to 66):
each device slot is the declared constant mapped to its trampoline,
the property table is installed, and the embedded ObjectClass is then
initialized from the ObjectImpl part of the same subclass. -/
def DeviceClassS.class_init {T : Type} (d : DeviceImplDecl T)
    (dc : DeviceClassS T) : DeviceClassS T :=
  { oc := ObjectClassS.class_init d.toObj dc.oc,
    realize := d.REALIZE.map (fun _ => rust_realize d),
    unrealize := d.UNREALIZE.map (fun _ => rust_unrealize d),
    cold_reset := d.COLD_RESET.map (fun _ => rust_cold_reset d),
    properties := d.PROPERTIES }

/-- Claim C9: after DeviceClass::class_init for a subclass T, each
overridable slot (realize, unrealize, cold_reset, and unparent in the
embedded ObjectClass) is populated exactly when T declares the
corresponding override constant as Some, and the embedded parent
ObjectClass is initialized by ObjectClass::class_init from the same T,
so the construction recurses through the ancestor slot set; for
ObjectClass::class_init alone the same population rule holds for
unparent. -/
theorem class_init_slots_iff {T : Type} (d : DeviceImplDecl T)
    (dc : DeviceClassS T) :
    (DeviceClassS.class_init d dc).realize.isSome = d.REALIZE.isSome ∧
    (DeviceClassS.class_init d dc).unrealize.isSome = d.UNREALIZE.isSome ∧
    (DeviceClassS.class_init d dc).cold_reset.isSome = d.COLD_RESET.isSome ∧
    (DeviceClassS.class_init d dc).oc.unparent.isSome =
      d.toObj.UNPARENT.isSome ∧
    (DeviceClassS.class_init d dc).oc =
      ObjectClassS.class_init d.toObj dc.oc ∧
    (∀ (od : ObjectImplDecl T) (oc : ObjectClassS T),
        (ObjectClassS.class_init od oc).unparent.isSome =
          od.UNPARENT.isSome) := by
  refine ⟨?_, ?_, ?_, ?_, rfl, ?_⟩
  · cases h : d.REALIZE <;>
      simp [DeviceClassS.class_init, h]
  · cases h : d.UNREALIZE <;>
      simp [DeviceClassS.class_init, h]
  · cases h : d.COLD_RESET <;>
      simp [DeviceClassS.class_init, h]
  · cases h : d.toObj.UNPARENT <;>
      simp [DeviceClassS.class_init, ObjectClassS.class_init, h]
  · intro od oc
    cases h : od.UNPARENT <;> simp [ObjectClassS.class_init, h]

/-- The calls an OwnedPointer wrapper makes to the designated release
function of its type (util/foreign.rs): free is T::free_foreign on the
given pointer. -/
inductive PtrOp where
  | free (p : Nat)

/-- The OwnedPointer wrapper of util/foreign.rs lines 188 to 190,
reduced to the raw pointer it owns. -/
structure OwnedPointerS where
  ptr : Nat

/-- Drop for OwnedPointer (util/foreign.rs lines 309 to 315): replace
the stored pointer with null and call free_foreign on the previous
value, hence exactly one free of the owned pointer. -/
def OwnedPointerS.dropGlue (w : OwnedPointerS) : List PtrOp :=
  [PtrOp.free w.ptr]

/-- OwnedPointer::into_inner (util/foreign.rs lines 268 to 272):
replace the stored pointer with null, mem::forget the wrapper (so its
drop glue never runs) and return the pointer; no free_foreign call is
made. -/
def OwnedPointerS.into_inner (w : OwnedPointerS) : Nat × List PtrOp :=
  (w.ptr, [])

/-- The two ways the affine Rust semantics allows an OwnedPointer
value to be consumed: it either goes out of scope (the drop glue runs
once) or it is moved into into_inner (after which the forgotten
wrapper has no drop glue). -/
inductive Consumption where
  | dropped
  | extracted

/-- The free_foreign calls made over a whole wrapper lifetime, by the
way the wrapper was consumed. -/
def OwnedPointerS.lifetimeOps (w : OwnedPointerS) :
    Consumption → List PtrOp
  | Consumption.dropped => w.dropGlue
  | Consumption.extracted => w.into_inner.2

/-- CloneToForeign::clone_to_foreign_ptr (util/foreign.rs lines 44 to
47): build the owning wrapper for the value and immediately extract
its pointer with into_inner, passing ownership to the caller. The
underlying clone_to_foreign of the concrete type is abstracted as
mk. -/
def cloneToForeignPtr {α : Type} (mk : α → OwnedPointerS) (x : α) :
    Nat × List PtrOp :=
  (mk x).into_inner

/-- Claim C10: over the lifetime of an OwnedPointer the wrapped
foreign pointer is released by free_foreign exactly once, on drop;
when into_inner extracted the pointer the wrapper makes no
free_foreign call at all and the caller receives exactly the wrapped
pointer, as does clone_to_foreign_ptr, which is into_inner applied to
the freshly built wrapper; hence neither a double free nor a leak can
arise from the wrapper itself. -/
theorem owned_pointer_free_once {α : Type} (w : OwnedPointerS)
    (mk : α → OwnedPointerS) (x : α) :
    OwnedPointerS.lifetimeOps w Consumption.dropped = [PtrOp.free w.ptr] ∧
    OwnedPointerS.lifetimeOps w Consumption.extracted = [] ∧
    w.into_inner.1 = w.ptr ∧
    cloneToForeignPtr mk x = ((mk x).ptr, []) :=
  ⟨rfl, rfl, rfl, rfl⟩

end Qemu
